import Mathlib

/-!
Shallow embedding of the homework status bot (`homework.py`, `exceptions.py`).

Python values flowing through the program are modelled by the `Json` type
(Python's `None` is `Json.null`).  Python exceptions are modelled by the
`PyExc` type, fallible functions return `Except PyExc _`.  The outcome of
each external interaction (the HTTP request issued by `get_api_answer`,
the Telegram send issued by `send_message`) is an explicit input of the
model, so that the functions stay pure while covering every behaviour of
the I/O layer.  The poll loop of `main` is modelled one cycle at a time
(`try_body`, `main_cycle`) and iterated over a list of per-cycle
environments (`run_cycles`).
-/

namespace HomeworkBot

/-- Decoded JSON data; `null` also stands for Python's `None`. -/
inductive Json where
  | null : Json
  | bool (b : Bool) : Json
  | num (n : Int) : Json
  | str (s : String) : Json
  | arr (items : List Json) : Json
  | obj (fields : List (String × Json)) : Json

/-- Python exceptions that the program raises or handles, with their
message argument.  Constructors mirror the classes of `exceptions.py`
plus the built-ins (`TypeError`, `KeyError`, `IndexError`,
`AttributeError`) the code can raise. -/
inductive PyExc where
  | typeError (msg : String) : PyExc
  | keyError (msg : String) : PyExc
  | indexError (msg : String) : PyExc
  | attributeError (msg : String) : PyExc
  | noConnectionToAPIError (msg : String) : PyExc
  | jsonDecodeError (msg : String) : PyExc
  | hwHaveNoStatusError (msg : String) : PyExc
  | hwHaveNoNameError (msg : String) : PyExc
  | sendMessageError (msg : String) : PyExc
  deriving DecidableEq

/-- Python `str(exc)`: the message the exception was constructed with. -/
def PyExc.text : PyExc → String
  | .typeError m => m
  | .keyError m => m
  | .indexError m => m
  | .attributeError m => m
  | .noConnectionToAPIError m => m
  | .jsonDecodeError m => m
  | .hwHaveNoStatusError m => m
  | .hwHaveNoNameError m => m
  | .sendMessageError m => m

/-! Module-level constants of `homework.py`. -/

def RETRY_PERIOD : Nat := 600

def ENDPOINT : String := "https://practicum.yandex.ru/api/user_api/homework_statuses/"

def HOMEWORK_VERDICTS : List (String × String) :=
  [("approved", "Работа проверена: ревьюеру всё понравилось. Ура!"),
   ("reviewing", "Работа взята на проверку ревьюером."),
   ("rejected", "Работа проверена: у ревьюера есть замечания.")]

def UNAVAILABLE_ENDPIONT_ERROR : String :=
  "Эндпоинт <\"" ++ ENDPOINT ++ "\"> недоступен!"

def NO_TOKEN_ERROR : String :=
  "Отсутствует одна или несколько переменных окружения! Завершение работы бота..."

def WRONG_RESPONSE_ERROR : String := "Ответ от API пришел не в виде словаря!"

def NO_KEY_ERROR : String := "В ответе API нет нужного ключа!"

def NO_LIST_ERROR : String :=
  "В ответе API по запросу \"response[\"homeworks\"]\" нет списка!"

def UNKNOWN_STATUS_ERROR : String :=
  "API возвратило недокументированный статус работы или работу без статуса!"

def SEND_MESSAGE_ERROR : String := "Ошибка при отправке сообщения в Telegram!"

def DECODE_ERROR : String := "Ошибка преобразования к типу данных Python!"

def HW_HAVE_NO_STATUS : String := "Домашнему заданию еще не присвоен статус!"

/-! Python-dict and Python-value helpers. -/

/-- Python `d.get(key)` on a dict: the value, or `None` when absent. -/
def pyDictGet (fields : List (String × Json)) (key : String) : Json :=
  (fields.lookup key).getD Json.null

/-- Python `d.get(key, default)` on a dict. -/
def pyDictGetD (fields : List (String × Json)) (key : String) (dflt : Json) : Json :=
  (fields.lookup key).getD dflt

/-- Python `key in d` on a dict. -/
def pyDictHasKey (fields : List (String × Json)) (key : String) : Bool :=
  (fields.lookup key).isSome

/-- Python `isinstance(x, dict)`. -/
def Json.isDict : Json → Bool
  | .obj _ => true
  | _ => false

/-- Python `isinstance(x, list)`. -/
def Json.isList : Json → Bool
  | .arr _ => true
  | _ => false

/-- Python `len(x)` for the values it is applied to in the program. -/
def pyLen : Json → Nat
  | .arr items => items.length
  | .str s => s.length
  | .obj fields => fields.length
  | _ => 0

/-- Python `str(x)` as used by f-string interpolation. -/
def pyStr : Json → String
  | .null => "None"
  | .bool true => "True"
  | .bool false => "False"
  | .num n => toString n
  | .str s => s
  | .arr _ => "[...]"
  | .obj _ => "\x7b...\x7d"

/-! The five functions of `homework.py`. -/

/-- `check_tokens`: collects the environment variables that are `None`
(unset) and, when the collection is nonempty, logs critically and calls
`sys.exit`.  Returns `true` when the process exits.  Each argument is
`os.getenv` of the corresponding variable: `none` when unset, `some v`
(possibly the empty string) when set. -/
def check_tokens_exits (practicum_token telegram_token telegram_chat_id : Option String) :
    Bool :=
  let empty_tokens :=
    ([("PRACTICUM_TOKEN", practicum_token), ("TELEGRAM_TOKEN", telegram_token),
      ("TELEGRAM_CHAT_ID", telegram_chat_id)].filter (fun kv => kv.2.isNone))
  empty_tokens.length != 0

/-- How the attempted HTTP request of one `get_api_answer` call went:
either `requests.get` raised a `requests.exceptions.RequestException`
(connection refused, timeout, DNS, ...), or a response arrived with a
status code and a body. -/
inductive HttpOutcome where
  | requestException (err : String) : HttpOutcome
  | responded (status_code : Nat) (body : Option Json) : HttpOutcome

/-- `get_api_answer`: on a `RequestException` the exception is caught and
logged and the function falls through, returning Python `None`
(`Json.null`); on a non-200 status it raises `NoConnectionToAPIError`; on
an undecodable body (`body = none`, i.e. `response.json()` raised) it
raises `JsonDecodeError`; otherwise it returns the decoded body. -/
def get_api_answer (outcome : HttpOutcome) : Except PyExc Json :=
  match outcome with
  | .requestException _ => .ok Json.null
  | .responded status_code body =>
    if status_code != 200 then
      .error (.noConnectionToAPIError UNAVAILABLE_ENDPIONT_ERROR)
    else
      match body with
      | none => .error (.jsonDecodeError DECODE_ERROR)
      | some j => .ok j

/-- `check_response`: raises `TypeError` when the response is not a dict,
`KeyError` when it lacks the key `homeworks`, `TypeError` when the value
at `homeworks` is not a list; otherwise returns `None`. -/
def check_response (response : Json) : Except PyExc Unit :=
  match response with
  | Json.obj fields =>
    if !(pyDictHasKey fields "homeworks") then
      .error (.keyError NO_KEY_ERROR)
    else if !(pyDictGet fields "homeworks").isList then
      .error (.typeError NO_LIST_ERROR)
    else
      .ok ()
  | _ => .error (.typeError WRONG_RESPONSE_ERROR)

/-- Python `homework_status in HOMEWORK_VERDICTS`: dict membership
hashes the candidate and tests it against the keys.  An unhashable
value — a list or a dict — makes the test itself raise `TypeError`; a
hashable value is a key exactly when it is a string equal to one of the
verdict codes (`None`, booleans and numbers are hashable but are not
keys). -/
def verdicts_contains : Json → Except PyExc Bool
  | .str s => .ok (HOMEWORK_VERDICTS.lookup s).isSome
  | .arr _ => .error (.typeError "unhashable type: list")
  | .obj _ => .error (.typeError "unhashable type: dict")
  | _ => .ok false

/-- Python `HOMEWORK_VERDICTS.get(homework_status)`. -/
def verdicts_get : Json → Json
  | .str s =>
    match HOMEWORK_VERDICTS.lookup s with
    | some v => .str v
    | none => .null
  | _ => .null

/-- `parse_status`: takes a homework record (a Python dict, given here as
its field list).  Reads `homework_name` and `status` with `.get`, then
evaluates `homework_status not in HOMEWORK_VERDICTS` — the membership
test itself may raise `TypeError` for an unhashable status value, which
propagates out of the function; when it evaluates to true the function
raises `HwHaveNoStatusError`, then raises `HwHaveNoNameError` when the
key `homework_name` is absent, else returns the formatted message. -/
def parse_status (homework : List (String × Json)) : Except PyExc String :=
  let homework_name := pyDictGet homework "homework_name"
  let homework_status := pyDictGet homework "status"
  match verdicts_contains homework_status with
  | .error e => .error e
  | .ok contained =>
    if !contained then
      .error (.hwHaveNoStatusError UNKNOWN_STATUS_ERROR)
    else if !(pyDictHasKey homework "homework_name") then
      .error (.hwHaveNoNameError NO_KEY_ERROR)
    else
      .ok ("Изменился статус проверки работы \"" ++ pyStr homework_name ++ "\". "
        ++ pyStr (verdicts_get homework_status))

/-- How one `bot.send_message` call to Telegram went. -/
inductive SendOutcome where
  | success : SendOutcome
  | telegramError (msg : String) : SendOutcome
  deriving DecidableEq

/-- `send_message`: on a `telegram.TelegramError` it logs the error and
raises `SendMessageError`; otherwise it logs success and returns. -/
def send_message (transport : SendOutcome) (message : String) : Except PyExc Unit :=
  match transport with
  | .success => .ok ()
  | .telegramError _ => .error (.sendMessageError SEND_MESSAGE_ERROR)

/-! The poll loop of `main`, one cycle at a time. -/

/-- The loop-carried state of `main`: the `timestamp` cursor (set once
from `time.time()` and never reassigned) and `latest_hw_status`
(initially Python `None`). -/
structure LoopState where
  timestamp : Int
  latest_hw_status : Option String
  deriving DecidableEq

/-- The I/O environment of one poll cycle: the outcome of the HTTP
request, and the outcomes the Telegram transport would give to the
status-message send (line 149) and to the failure-notification send
(line 153), should they be reached. -/
structure CycleEnv where
  http : HttpOutcome
  send_status_transport : SendOutcome
  send_failure_transport : SendOutcome

/-- Result of the `try` block of one cycle: the loop state after it, the
messages passed to `send_message` (in order, whether or not delivery
succeeded), and the exception that escaped the block, if any. -/
structure TryResult where
  state : LoopState
  calls : List String
  raised : Option PyExc
  deriving DecidableEq

/-- The `try` block of `main`'s loop body (lines 137-149): fetch,
validate, and either skip on an empty `homeworks` list or format the
first record, compare with `latest_hw_status`, and on a change update
the state and send.  The two match arms after the length check that end
in `IndexError` / `TypeError` (`[0]` on an empty list, subscripting a
non-list) are unreachable once `check_response` succeeded but mirror
what Python would raise there. -/
def try_body (env : CycleEnv) (s : LoopState) : TryResult :=
  match get_api_answer env.http with
  | .error e => ⟨s, [], some e⟩
  | .ok api_answer =>
    match check_response api_answer with
    | .error e => ⟨s, [], some e⟩
    | .ok _ =>
      match api_answer with
      | Json.obj fields =>
        if pyLen (pyDictGetD fields "homeworks" (Json.str HW_HAVE_NO_STATUS)) = 0 then
          ⟨s, [], none⟩
        else
          match pyDictGet fields "homeworks" with
          | Json.arr (hw0 :: _) =>
            match hw0 with
            | Json.obj hwfields =>
              match parse_status hwfields with
              | .error e => ⟨s, [], some e⟩
              | .ok previous_hw_status =>
                if some previous_hw_status ≠ s.latest_hw_status then
                  let s' : LoopState := ⟨s.timestamp, some previous_hw_status⟩
                  match send_message env.send_status_transport previous_hw_status with
                  | .ok _ => ⟨s', [previous_hw_status], none⟩
                  | .error e => ⟨s', [previous_hw_status], some e⟩
                else
                  ⟨s, [], none⟩
            | _ => ⟨s, [], some (.attributeError "object has no attribute get")⟩
          | Json.arr [] => ⟨s, [], some (.indexError "list index out of range")⟩
          | _ => ⟨s, [], some (.typeError "object is not subscriptable")⟩
      | _ => ⟨s, [], none⟩

/-- The message `main`'s `except` handler builds from the caught
exception: Python `f-string` of `'Сбой в работе программы: '` and the
exception. -/
def failure_message (e : PyExc) : String :=
  "Сбой в работе программы: " ++ e.text

/-- Outcome of one full loop body: either the loop reaches the
unconditional `finally: time.sleep(RETRY_PERIOD)` and continues with the
next cycle, or an exception escaped the `except` handler itself and the
loop (and process) terminates after the `finally` sleep. -/
inductive CycleOutcome where
  | next (state : LoopState) (calls : List String) : CycleOutcome
  | crash (state : LoopState) (calls : List String) (exc : PyExc) : CycleOutcome
  deriving DecidableEq

/-- One iteration of `main`'s `while True` (lines 136-155): run the
`try` block; when it raises, log the failure message and send it with
`send_message` — a `SendMessageError` raised by that call is not caught
by anything and crashes the loop. -/
def main_cycle (env : CycleEnv) (s : LoopState) : CycleOutcome :=
  let r := try_body env s
  match r.raised with
  | none => .next r.state r.calls
  | some e =>
    let message := failure_message e
    match send_message env.send_failure_transport message with
    | .ok _ => .next r.state (r.calls ++ [message])
    | .error e' => .crash r.state (r.calls ++ [message]) e'

/-- Whether the loop body terminated the loop. -/
def CycleOutcome.isCrash : CycleOutcome → Bool
  | .crash _ _ _ => true
  | .next _ _ => false

/-- Result of running the loop over a finite list of per-cycle
environments: final state, all `send_message` invocations in order, and
the exception that terminated the loop, if one did. -/
structure RunResult where
  state : LoopState
  calls : List String
  crashed : Option PyExc
  deriving DecidableEq

/-- Iterate `main_cycle` over a list of cycle environments, stopping
early when a cycle crashes the loop. -/
def run_cycles (envs : List CycleEnv) (s : LoopState) : RunResult :=
  match envs with
  | [] => ⟨s, [], none⟩
  | env :: rest =>
    match main_cycle env s with
    | .next s' calls =>
      let r := run_cycles rest s'
      ⟨r.state, calls ++ r.calls, r.crashed⟩
    | .crash s' calls e => ⟨s', calls, some e⟩

/-- `main` (lines 130-155): first `check_tokens` — when it exits, the
process terminates before the bot is constructed and before any HTTP
request (`none`); otherwise the loop starts from `timestamp =
int(time.time())` and `latest_hw_status = None` and runs its cycles. -/
def main_run (practicum_token telegram_token telegram_chat_id : Option String)
    (start_timestamp : Int) (envs : List CycleEnv) : Option RunResult :=
  if check_tokens_exits practicum_token telegram_token telegram_chat_id then
    none
  else
    some (run_cycles envs ⟨start_timestamp, none⟩)

/-! Concrete example data used by several theorems below. -/

/-- The homework record of the spec's end-to-end example. -/
def hw_cat : List (String × Json) :=
  [("homework_name", .str "cat_project"), ("status", .str "approved")]

/-- The exact message the spec's end-to-end example expects. -/
def CAT_APPROVED_MESSAGE : String :=
  "Изменился статус проверки работы \"cat_project\". Работа проверена: ревьюеру всё понравилось. Ура!"

/-- Response body `{"homeworks":[{"homework_name":"cat_project","status":"approved"}]}`. -/
def body_cat : Json := .obj [("homeworks", .arr [.obj hw_cat])]

/-- A cycle where the API returns `body_cat` and Telegram delivery works. -/
def env_cat : CycleEnv := ⟨.responded 200 (some body_cat), .success, .success⟩

/-- The same homework with status `rejected`. -/
def hw_cat_rej : List (String × Json) :=
  [("homework_name", .str "cat_project"), ("status", .str "rejected")]

/-- The message `parse_status` produces for `hw_cat_rej`. -/
def CAT_REJECTED_MESSAGE : String :=
  "Изменился статус проверки работы \"cat_project\". Работа проверена: у ревьюера есть замечания."

/-- Response body with the rejected record. -/
def body_cat_rej : Json := .obj [("homeworks", .arr [.obj hw_cat_rej])]

/-- A cycle returning `body_cat_rej` with working Telegram delivery. -/
def env_cat_rej : CycleEnv := ⟨.responded 200 (some body_cat_rej), .success, .success⟩

/-! Helper lemmas shared by the claim theorems. -/

/-- Characterisation of the `try` block on a cycle that reaches the
notify step: a 200 response whose body is a dict whose `homeworks` list
starts with a record that formats to `M`. -/
theorem try_body_notify (env : CycleEnv) (s : LoopState)
    (fields hw : List (String × Json)) (rest : List Json) (M : String)
    (h1 : env.http = .responded 200 (some (Json.obj fields)))
    (h2 : fields.lookup "homeworks" = some (Json.arr (Json.obj hw :: rest)))
    (h3 : parse_status hw = .ok M) :
    try_body env s =
      if some M ≠ s.latest_hw_status then
        ⟨⟨s.timestamp, some M⟩, [M],
          match env.send_status_transport with
          | .success => none
          | .telegramError _ => some (PyExc.sendMessageError SEND_MESSAGE_ERROR)⟩
      else ⟨s, [], none⟩ := by
  simp only [try_body, get_api_answer, h1, check_response, pyDictHasKey, h2, pyDictGet,
    pyDictGetD, Option.isSome, Option.getD, Json.isList, pyLen, h3, send_message,
    List.length_cons, bne_self_eq_false, Bool.false_eq_true, if_false, Bool.not_true,
    Nat.succ_ne_zero, if_neg]
  cases env.send_status_transport <;> rfl

/-- A notify-step cycle whose status send succeeds: the Notifier is
invoked exactly when the message differs from `latest_hw_status`, and
the state is updated in that case. -/
theorem main_cycle_notify (env : CycleEnv) (s : LoopState)
    (fields hw : List (String × Json)) (rest : List Json) (M : String)
    (h1 : env.http = .responded 200 (some (Json.obj fields)))
    (h2 : fields.lookup "homeworks" = some (Json.arr (Json.obj hw :: rest)))
    (h3 : parse_status hw = .ok M)
    (h4 : env.send_status_transport = SendOutcome.success) :
    main_cycle env s =
      if some M ≠ s.latest_hw_status then
        .next ⟨s.timestamp, some M⟩ [M]
      else
        .next s [] := by
  unfold main_cycle
  rw [try_body_notify env s fields hw rest M h1 h2 h3, h4]
  by_cases hc : some M ≠ s.latest_hw_status
  · simp only [if_pos hc]
  · simp only [if_neg hc]

/-- A notify-step cycle producing a fresh message whose status send
fails with a `TelegramError`, while the failure notification goes
through: `latest_hw_status` is already updated, `send_message` was
invoked with the new message, and the loop continues. -/
theorem main_cycle_notify_sendfail (env : CycleEnv) (s : LoopState)
    (fields hw : List (String × Json)) (rest : List Json) (M m : String)
    (h1 : env.http = .responded 200 (some (Json.obj fields)))
    (h2 : fields.lookup "homeworks" = some (Json.arr (Json.obj hw :: rest)))
    (h3 : parse_status hw = .ok M)
    (h4 : env.send_status_transport = SendOutcome.telegramError m)
    (h5 : env.send_failure_transport = SendOutcome.success)
    (hM : some M ≠ s.latest_hw_status) :
    main_cycle env s =
      .next ⟨s.timestamp, some M⟩
        [M, failure_message (.sendMessageError SEND_MESSAGE_ERROR)] := by
  unfold main_cycle
  rw [try_body_notify env s fields hw rest M h1 h2 h3, h4, if_pos hM, h5]
  rfl

/-- A string is a key of `HOMEWORK_VERDICTS` exactly when it is one of
the three verdict codes. -/
theorem verdicts_lookup_isSome_iff (s : String) :
    (HOMEWORK_VERDICTS.lookup s).isSome = true ↔
      (s = "approved" ∨ s = "reviewing" ∨ s = "rejected") := by
  simp only [HOMEWORK_VERDICTS, List.lookup]
  constructor
  · intro h
    split at h <;> simp_all
    split at h <;> simp_all
    split at h <;> simp_all
  · intro h
    rcases h with h | h | h <;> subst h <;> rfl

/-- `homework_status in HOMEWORK_VERDICTS` evaluates to true exactly for
a record whose `status` field is one of the three verdict codes. -/
theorem verdicts_contains_get_iff (hw : List (String × Json)) :
    verdicts_contains (pyDictGet hw "status") = .ok true ↔
      ∃ s, hw.lookup "status" = some (Json.str s) ∧
        (s = "approved" ∨ s = "reviewing" ∨ s = "rejected") := by
  unfold pyDictGet
  cases hl : hw.lookup "status" with
  | none => simp [verdicts_contains]
  | some v =>
    cases v with
    | str s =>
      simp [verdicts_contains]
      constructor
      · rintro ⟨x, hx⟩
        simp [HOMEWORK_VERDICTS] at hx
        rcases hx with ⟨hs, _⟩ | ⟨hs, _⟩ | ⟨hs, _⟩ <;> simp [hs]
      · rintro (h | h | h) <;> subst h
        · exact ⟨"Работа проверена: ревьюеру всё понравилось. Ура!",
            by simp [HOMEWORK_VERDICTS]⟩
        · exact ⟨"Работа взята на проверку ревьюером.", by simp [HOMEWORK_VERDICTS]⟩
        · exact ⟨"Работа проверена: у ревьюера есть замечания.",
            by simp [HOMEWORK_VERDICTS]⟩
    | null => simp [verdicts_contains]
    | bool b => simp [verdicts_contains]
    | num n => simp [verdicts_contains]
    | arr items => simp [verdicts_contains]
    | obj f => simp [verdicts_contains]

/-- The membership test only raises `TypeError` (for unhashable status
values), never any other exception. -/
theorem verdicts_contains_error_is_type_error (j : Json) (e : PyExc)
    (h : verdicts_contains j = .error e) : ∃ m, e = .typeError m := by
  cases j <;> simp [verdicts_contains] at h <;> exact ⟨_, h.symm⟩

/-! Claim theorems. -/

/-- C1, counterexample: a poll cycle whose fetch raises
(`NoConnectionToAPIError` from a 404) reaches the `except` handler, but
when the failure notification's own delivery fails, the raised
`SendMessageError` is not caught and the loop terminates — refuting "the
loop never terminates because of a transient error in any of those
steps". -/
theorem C1_loop_crash_on_failed_failure_delivery :
    main_cycle ⟨.responded 404 (some body_cat), .success, .telegramError "network down"⟩
        ⟨0, none⟩ =
      CycleOutcome.crash ⟨0, none⟩
        [failure_message (.noConnectionToAPIError UNAVAILABLE_ENDPIONT_ERROR)]
        (.sendMessageError SEND_MESSAGE_ERROR) := rfl

/-- C1, amended: every exception raised inside the try block of a poll
cycle is caught and a failure notification is attempted; the loop
survives provided that delivery succeeds, and when that delivery itself
fails the `SendMessageError` propagates and the loop crashes. -/
theorem C1_errors_caught_and_notified (env : CycleEnv) (s : LoopState) :
    (env.send_failure_transport = SendOutcome.success →
      (main_cycle env s).isCrash = false) ∧
    (∀ e, (try_body env s).raised = some e →
      env.send_failure_transport = SendOutcome.success →
      main_cycle env s =
        CycleOutcome.next (try_body env s).state
          ((try_body env s).calls ++ [failure_message e])) ∧
    (∀ e m, (try_body env s).raised = some e →
      env.send_failure_transport = SendOutcome.telegramError m →
      main_cycle env s =
        CycleOutcome.crash (try_body env s).state
          ((try_body env s).calls ++ [failure_message e])
          (PyExc.sendMessageError SEND_MESSAGE_ERROR)) := by
  refine ⟨?_, ?_, ?_⟩
  · intro hs
    cases hr : (try_body env s).raised with
    | none => simp only [main_cycle, hr, CycleOutcome.isCrash]
    | some e => simp only [main_cycle, hr, hs, send_message, CycleOutcome.isCrash]
  · intro e hr hs
    simp only [main_cycle, hr, hs, send_message]
  · intro e m hr hs
    simp only [main_cycle, hr, hs, send_message]

/-- C1, witness: a cycle with a 404 fetch and a working failure channel
continues the loop after notifying about the failure. -/
theorem C1_errors_caught_and_notified_witness :
    main_cycle ⟨.responded 404 (some body_cat), .success, .success⟩ ⟨0, none⟩ =
      CycleOutcome.next ⟨0, none⟩
        [failure_message (.noConnectionToAPIError UNAVAILABLE_ENDPIONT_ERROR)] :=
  (C1_errors_caught_and_notified ⟨.responded 404 (some body_cat), .success, .success⟩
    ⟨0, none⟩).2.1 (.noConnectionToAPIError UNAVAILABLE_ENDPIONT_ERROR) rfl rfl

/-- C2, counterexample: with cycles producing messages A, B, A the loop
sends A twice, because only the last notified message is remembered —
refuting "a notification is sent at most once per distinct status
message". -/
theorem C2_renotify_after_intervening_message :
    (run_cycles [env_cat, env_cat_rej, env_cat] ⟨0, none⟩).calls =
      [CAT_APPROVED_MESSAGE, CAT_REJECTED_MESSAGE, CAT_APPROVED_MESSAGE] ∧
    CAT_APPROVED_MESSAGE ≠ CAT_REJECTED_MESSAGE ∧
    List.count CAT_APPROVED_MESSAGE
      (run_cycles [env_cat, env_cat_rej, env_cat] ⟨0, none⟩).calls = 2 :=
  ⟨rfl, by decide, rfl⟩

/-- C2, amended: the Notifier is invoked exactly when the formatted
message differs from the immediately previously notified one: two
consecutive cycles with the same message and a differing prior state
yield exactly one invocation, two consecutive cycles with the same
message yield at most one invocation from any state, and two cycles with
different messages (the first fresh) yield two invocations with the
respective messages.  Deduplication is only against the immediately
preceding message, not against all previously sent messages. -/
theorem C2_notify_on_change_only (s : LoopState) (env1 env2 : CycleEnv)
    (fields1 hw1 : List (String × Json)) (rest1 : List Json)
    (fields2 hw2 : List (String × Json)) (rest2 : List Json) (M1 M2 : String)
    (h11 : env1.http = .responded 200 (some (Json.obj fields1)))
    (h12 : fields1.lookup "homeworks" = some (Json.arr (Json.obj hw1 :: rest1)))
    (h13 : parse_status hw1 = .ok M1)
    (h14 : env1.send_status_transport = SendOutcome.success)
    (h21 : env2.http = .responded 200 (some (Json.obj fields2)))
    (h22 : fields2.lookup "homeworks" = some (Json.arr (Json.obj hw2 :: rest2)))
    (h23 : parse_status hw2 = .ok M2)
    (h24 : env2.send_status_transport = SendOutcome.success) :
    (M1 = M2 → some M1 ≠ s.latest_hw_status →
      (run_cycles [env1, env2] s).calls = [M1]) ∧
    (M1 = M2 → List.count M1 (run_cycles [env1, env2] s).calls ≤ 1) ∧
    (M1 ≠ M2 → some M1 ≠ s.latest_hw_status →
      (run_cycles [env1, env2] s).calls = [M1, M2]) := by
  have hc1 := main_cycle_notify env1 s fields1 hw1 rest1 M1 h11 h12 h13 h14
  refine ⟨?_, ?_, ?_⟩
  · intro hEq hNe
    subst hEq
    have hc2 := main_cycle_notify env2 ⟨s.timestamp, some M1⟩ fields2 hw2 rest2 M1
      h21 h22 h23 h24
    simp only [run_cycles, hc1, if_pos hNe, hc2, ne_eq, not_true_eq_false,
      not_false_eq_true, if_neg, ite_self, List.append_nil, List.nil_append]
  · intro hEq
    subst hEq
    by_cases hNe : some M1 ≠ s.latest_hw_status
    · have hc2 := main_cycle_notify env2 ⟨s.timestamp, some M1⟩ fields2 hw2 rest2 M1
        h21 h22 h23 h24
      simp only [run_cycles, hc1, if_pos hNe, hc2]
      simp
    · have hs' : s.latest_hw_status = some M1 := by
        rcases Decidable.not_not.mp hNe with h
        exact h.symm
      have hc2 := main_cycle_notify env2 s fields2 hw2 rest2 M1 h21 h22 h23 h24
      simp only [run_cycles, hc1, if_neg hNe, hc2]
      simp [hNe]
  · intro hNe12 hNe
    have hc2 := main_cycle_notify env2 ⟨s.timestamp, some M1⟩ fields2 hw2 rest2 M2
      h21 h22 h23 h24
    have hNe2 : some M2 ≠ (some M1 : Option String) := by
      simp [hNe12.symm]
    simp only [run_cycles, hc1, if_pos hNe, hc2]
    simp [hNe2]

/-- C2, witness: two consecutive cycles returning the approved
cat_project record invoke the Notifier exactly once. -/
theorem C2_notify_on_change_only_witness :
    (run_cycles [env_cat, env_cat] ⟨0, none⟩).calls = [CAT_APPROVED_MESSAGE] :=
  (C2_notify_on_change_only ⟨0, none⟩ env_cat env_cat
    [("homeworks", .arr [.obj hw_cat])] hw_cat []
    [("homeworks", .arr [.obj hw_cat])] hw_cat []
    CAT_APPROVED_MESSAGE CAT_APPROVED_MESSAGE
    rfl rfl rfl rfl rfl rfl rfl rfl).1 rfl (by simp)

/-- C3, counterexample: with `PRACTICUM_TOKEN` set to the empty string,
`check_tokens` does not exit (it only tests for `None`) and `main`
proceeds into the loop — refuting "if any one of them is unset or empty
... terminates immediately". -/
theorem C3_empty_token_not_fatal :
    check_tokens_exits (some "") (some "x") (some "y") = false ∧
    main_run (some "") (some "x") (some "y") 0 [] = some ⟨⟨0, none⟩, [], none⟩ :=
  ⟨rfl, rfl⟩

/-- C3, amended: at startup, before the loop and before any HTTP
request, the process exits with a critical diagnostic exactly when one
of the three configuration values is unset (`None`); a set-but-empty
value passes the check. -/
theorem C3_exit_iff_unset_token (p t c : Option String) :
    (check_tokens_exits p t c = true ↔ (p = none ∨ t = none ∨ c = none)) ∧
    (∀ (t0 : Int) (envs : List CycleEnv),
      (p = none ∨ t = none ∨ c = none) → main_run p t c t0 envs = none) := by
  have hiff : check_tokens_exits p t c = true ↔ (p = none ∨ t = none ∨ c = none) := by
    cases p <;> cases t <;> cases c <;> simp [check_tokens_exits, List.filter]
  refine ⟨hiff, fun t0 envs h => ?_⟩
  unfold main_run
  rw [if_pos (hiff.mpr h)]

/-- C3, witness: with the chat id unset the process terminates before
running any cycle, hence before any HTTP request. -/
theorem C3_exit_iff_unset_token_witness :
    main_run (some "p") (some "t") none 0 [env_cat] = none :=
  (C3_exit_iff_unset_token (some "p") (some "t") none).2 0 [env_cat]
    (Or.inr (Or.inr rfl))

/-- C4, counterexample: for the record `{"status": []}` the membership
test `homework_status not in HOMEWORK_VERDICTS` (homework.py line 111)
itself raises `TypeError` (unhashable type), so `parse_status` does not
fail with the unknown/missing-status error — refuting the claim's
universal "if the `status` field is absent or not one of {approved,
reviewing, rejected} it fails with an unknown/missing-status error". -/
theorem C4_unhashable_status_raises_type_error :
    parse_status [("status", Json.arr [])] =
      .error (.typeError "unhashable type: list") ∧
    PyExc.typeError "unhashable type: list" ≠
      PyExc.hwHaveNoStatusError UNKNOWN_STATUS_ERROR :=
  ⟨rfl, by decide⟩

/-- C4, amended: `parse_status` raises the unknown/missing-status error
for every record whose `status` is absent or is a hashable value not
among the three verdict codes; when `status` is an unhashable list or
dict the membership test itself raises `TypeError` (still before any
name check); a missing-name error implies the status was recognized
(and the `homework_name` key absent); and a record lacking both fields
fails with the status error — the status check comes first. -/
theorem C4_status_checked_before_name (hw : List (String × Json)) :
    ((¬ ∃ s, hw.lookup "status" = some (Json.str s) ∧
        (s = "approved" ∨ s = "reviewing" ∨ s = "rejected")) →
      (∀ items, hw.lookup "status" ≠ some (Json.arr items)) →
      (∀ f, hw.lookup "status" ≠ some (Json.obj f)) →
      parse_status hw = .error (.hwHaveNoStatusError UNKNOWN_STATUS_ERROR)) ∧
    (∀ items, hw.lookup "status" = some (Json.arr items) →
      parse_status hw = .error (.typeError "unhashable type: list")) ∧
    (∀ f, hw.lookup "status" = some (Json.obj f) →
      parse_status hw = .error (.typeError "unhashable type: dict")) ∧
    (∀ msg, parse_status hw = .error (.hwHaveNoNameError msg) →
      (∃ s, hw.lookup "status" = some (Json.str s) ∧
        (s = "approved" ∨ s = "reviewing" ∨ s = "rejected")) ∧
      hw.lookup "homework_name" = none) ∧
    (hw.lookup "status" = none → hw.lookup "homework_name" = none →
      parse_status hw = .error (.hwHaveNoStatusError UNKNOWN_STATUS_ERROR)) := by
  have p1 : (¬ ∃ s, hw.lookup "status" = some (Json.str s) ∧
      (s = "approved" ∨ s = "reviewing" ∨ s = "rejected")) →
      (∀ items, hw.lookup "status" ≠ some (Json.arr items)) →
      (∀ f, hw.lookup "status" ≠ some (Json.obj f)) →
      parse_status hw = .error (.hwHaveNoStatusError UNKNOWN_STATUS_ERROR) := by
    intro h hnarr hnobj
    have hvc : verdicts_contains (pyDictGet hw "status") = .ok false := by
      unfold pyDictGet
      cases hl : hw.lookup "status" with
      | none => rfl
      | some v =>
        cases v with
        | null => rfl
        | bool b => rfl
        | num n => rfl
        | str s =>
          have hs : ¬(s = "approved" ∨ s = "reviewing" ∨ s = "rejected") :=
            fun hmem => h ⟨s, hl, hmem⟩
          have hfalse : (HOMEWORK_VERDICTS.lookup s).isSome = false := by
            rw [← Bool.not_eq_true, verdicts_lookup_isSome_iff]
            exact hs
          simp [verdicts_contains, hfalse]
        | arr items => exact absurd hl (hnarr items)
        | obj f => exact absurd hl (hnobj f)
    simp [parse_status, hvc]
  refine ⟨p1, ?_, ?_, ?_, ?_⟩
  · intro items hitems
    have hget : pyDictGet hw "status" = Json.arr items := by
      simp [pyDictGet, hitems]
    simp [parse_status, hget, verdicts_contains]
  · intro f hf
    have hget : pyDictGet hw "status" = Json.obj f := by
      simp [pyDictGet, hf]
    simp [parse_status, hget, verdicts_contains]
  · intro msg h
    rcases hres : verdicts_contains (pyDictGet hw "status") with e | b
    · obtain ⟨m, rfl⟩ := verdicts_contains_error_is_type_error _ _ hres
      simp [parse_status, hres] at h
    · cases b with
      | false =>
        simp [parse_status, hres] at h
      | true =>
        cases hk : pyDictHasKey hw "homework_name" with
        | false =>
          refine ⟨(verdicts_contains_get_iff hw).mp hres, ?_⟩
          cases ho : hw.lookup "homework_name" with
          | none => rfl
          | some v =>
            exfalso
            simp [pyDictHasKey, ho] at hk
        | true =>
          exfalso
          simp [parse_status, hres, hk] at h
  · intro h1 _
    exact p1 (by rintro ⟨s0, hs, _⟩; rw [h1] at hs; exact Option.noConfusion hs)
      (fun items hc => by rw [h1] at hc; exact Option.noConfusion hc)
      (fun f hc => by rw [h1] at hc; exact Option.noConfusion hc)

/-- C4, witness: a record with neither field fails with the
unknown/missing-status error, a record whose status is an unhashable
list raises `TypeError` from the membership test, and a record whose
only field is a recognized status fails with the missing-name error
while its status is indeed recognized. -/
theorem C4_status_checked_before_name_witness :
    parse_status [] = .error (.hwHaveNoStatusError UNKNOWN_STATUS_ERROR) ∧
    parse_status [("status", Json.arr [])] =
      .error (.typeError "unhashable type: list") ∧
    (∃ s, List.lookup "status" [("status", Json.str "approved")] = some (Json.str s) ∧
      (s = "approved" ∨ s = "reviewing" ∨ s = "rejected")) :=
  ⟨(C4_status_checked_before_name []).1
      (by rintro ⟨s, hs, _⟩; simp at hs)
      (fun items hc => by simp at hc)
      (fun f hc => by simp at hc),
   (C4_status_checked_before_name [("status", Json.arr [])]).2.1 [] rfl,
   ((C4_status_checked_before_name [("status", Json.str "approved")]).2.2.2.1
     NO_KEY_ERROR rfl).1⟩

/-- C5: a network-level request failure never propagates out of
`get_api_answer` — the function returns Python `None` — and the loop
handles the absent result without crashing: `check_response` rejects
`None`, the loop's handler catches that and, the failure notification
going through, the loop continues. -/
theorem C5_network_failure_contained (err : String) :
    get_api_answer (.requestException err) = .ok Json.null ∧
    (∀ (env : CycleEnv) (s : LoopState),
      env.http = .requestException err →
      env.send_failure_transport = SendOutcome.success →
      main_cycle env s =
        .next s [failure_message (.typeError WRONG_RESPONSE_ERROR)]) := by
  refine ⟨rfl, fun env s h1 h2 => ?_⟩
  simp only [main_cycle, try_body, get_api_answer, h1, check_response, h2, send_message,
    List.nil_append]

/-- C5, witness: a concrete timed-out cycle with a working failure
channel continues the loop. -/
theorem C5_network_failure_contained_witness :
    main_cycle ⟨.requestException "timeout", .success, .success⟩ ⟨0, none⟩ =
      .next ⟨0, none⟩ [failure_message (.typeError WRONG_RESPONSE_ERROR)] :=
  (C5_network_failure_contained "timeout").2
    ⟨.requestException "timeout", .success, .success⟩ ⟨0, none⟩ rfl rfl

/-- A successful dict lookup yields a key-value pair in the field list
(helper for the response-shape characterisation). -/
theorem exists_mem_of_lookup_eq_some {l : List (String × Json)} {k : String} {v : Json}
    (h : l.lookup k = some v) : ∃ x, (k, x) ∈ l := by
  have hs : (l.lookup k).isSome := by rw [h]; rfl
  rw [List.lookup_isSome_iff] at hs
  obtain ⟨⟨a, b⟩, hm, he⟩ := hs
  have hk : k = a := by simpa using he
  subst hk
  exact ⟨b, hm⟩

/-- C6: `check_response` fails with the malformed-response `TypeError`
exactly when the body is not a dict, with the missing-field `KeyError`
exactly when the dict lacks the key `homeworks`, with the
malformed-field `TypeError` exactly when the value at `homeworks` is not
a list, and succeeds exactly when all three checks pass — no other
checks. -/
theorem C6_check_response_exact_checks (response : Json) :
    (check_response response = .error (.typeError WRONG_RESPONSE_ERROR) ↔
      response.isDict = false) ∧
    (check_response response = .error (.keyError NO_KEY_ERROR) ↔
      ∃ fields, response = Json.obj fields ∧ fields.lookup "homeworks" = none) ∧
    (check_response response = .error (.typeError NO_LIST_ERROR) ↔
      ∃ fields v, response = Json.obj fields ∧ fields.lookup "homeworks" = some v ∧
        v.isList = false) ∧
    (check_response response = .ok () ↔
      ∃ fields items, response = Json.obj fields ∧
        fields.lookup "homeworks" = some (Json.arr items)) := by
  have hne1 : NO_LIST_ERROR ≠ WRONG_RESPONSE_ERROR := by decide
  cases response with
  | obj fields =>
    cases hl : fields.lookup "homeworks" with
    | none =>
      simp [check_response, pyDictHasKey, pyDictGet, hl, Json.isDict]
      simp only [List.lookup_eq_none_iff] at hl
      simpa using hl
    | some v =>
      cases v <;>
        simp [check_response, pyDictHasKey, pyDictGet, hl, Json.isDict, Json.isList, hne1] <;>
        exact exists_mem_of_lookup_eq_some hl
  | null => simp [check_response, Json.isDict, hne1.symm]
  | bool b => simp [check_response, Json.isDict, hne1.symm]
  | num n => simp [check_response, Json.isDict, hne1.symm]
  | str s => simp [check_response, Json.isDict, hne1.symm]
  | arr items => simp [check_response, Json.isDict, hne1.symm]

/-- C7: a response with any status code other than 200 makes
`get_api_answer` raise `NoConnectionToAPIError`, which reaches the
loop's error-handling branch: the cycle sends the corresponding failure
notification and continues. -/
theorem C7_non_200_raises_no_connection (status_code : Nat) (body : Option Json)
    (h : status_code ≠ 200) :
    get_api_answer (.responded status_code body) =
      .error (.noConnectionToAPIError UNAVAILABLE_ENDPIONT_ERROR) ∧
    (∀ (env : CycleEnv) (s : LoopState),
      env.http = .responded status_code body →
      env.send_failure_transport = SendOutcome.success →
      main_cycle env s =
        .next s [failure_message (.noConnectionToAPIError UNAVAILABLE_ENDPIONT_ERROR)]) := by
  have hb : (status_code != 200) = true := bne_iff_ne.mpr h
  refine ⟨?_, fun env s h1 h2 => ?_⟩
  · simp only [get_api_answer, hb, if_true]
  · simp only [main_cycle, try_body, get_api_answer, h1, hb, if_true, h2, send_message,
      List.nil_append]

/-- C7, witness: a 503 response yields the no-connection error and the
loop survives it through the failure notification. -/
theorem C7_non_200_raises_no_connection_witness :
    get_api_answer (.responded 503 (some body_cat)) =
      .error (.noConnectionToAPIError UNAVAILABLE_ENDPIONT_ERROR) :=
  (C7_non_200_raises_no_connection 503 (some body_cat) (by decide)).1

/-- C8: on the response
`{"homeworks":[{"homework_name":"cat_project","status":"approved"}]}`
the formatter produces exactly the expected Russian message and one poll
cycle from the initial state invokes the Notifier exactly once with that
exact string. -/
theorem C8_cat_project_end_to_end :
    parse_status hw_cat = .ok CAT_APPROVED_MESSAGE ∧
    run_cycles [env_cat] ⟨0, none⟩ =
      ⟨⟨0, some CAT_APPROVED_MESSAGE⟩, [CAT_APPROVED_MESSAGE], none⟩ :=
  ⟨rfl, rfl⟩

/-- C9: a cycle whose validated response carries an empty `homeworks`
list sends nothing, raises nothing, and leaves the loop state — the
timestamp cursor and `latest_hw_status` — unchanged, proceeding to the
sleep step. -/
theorem C9_empty_homeworks_no_notify (env : CycleEnv) (s : LoopState)
    (fields : List (String × Json))
    (h1 : env.http = .responded 200 (some (Json.obj fields)))
    (h2 : fields.lookup "homeworks" = some (Json.arr [])) :
    main_cycle env s = .next s [] := by
  simp only [main_cycle, try_body, get_api_answer, h1, check_response, pyDictHasKey, h2,
    pyDictGet, pyDictGetD, Option.isSome, Option.getD, Json.isList, pyLen, List.length_nil,
    bne_self_eq_false, Bool.not_true, Bool.false_eq_true, if_false, if_true]

/-- C9, witness: the literal `{"homeworks": []}` response leaves a
nontrivial state untouched and sends nothing. -/
theorem C9_empty_homeworks_no_notify_witness :
    main_cycle ⟨.responded 200 (some (.obj [("homeworks", .arr [])])), .success, .success⟩
        ⟨5, some "m"⟩ =
      .next ⟨5, some "m"⟩ [] :=
  C9_empty_homeworks_no_notify
    ⟨.responded 200 (some (.obj [("homeworks", .arr [])])), .success, .success⟩
    ⟨5, some "m"⟩ [("homeworks", .arr [])] rfl rfl

/-- C10: the notify step assigns `latest_hw_status` before calling
`send_message`, so when delivery of a fresh message fails the state
already records it: the cycle ends with `latest_hw_status = some M`
although `M` was never delivered, and a following cycle producing the
same message sends nothing — the change is lost, not retried. -/
theorem C10_state_updated_before_send (s : LoopState) (env1 env2 : CycleEnv)
    (fields1 hw1 : List (String × Json)) (rest1 : List Json)
    (fields2 hw2 : List (String × Json)) (rest2 : List Json) (M m : String)
    (h11 : env1.http = .responded 200 (some (Json.obj fields1)))
    (h12 : fields1.lookup "homeworks" = some (Json.arr (Json.obj hw1 :: rest1)))
    (h13 : parse_status hw1 = .ok M)
    (h14 : env1.send_status_transport = SendOutcome.telegramError m)
    (h15 : env1.send_failure_transport = SendOutcome.success)
    (h21 : env2.http = .responded 200 (some (Json.obj fields2)))
    (h22 : fields2.lookup "homeworks" = some (Json.arr (Json.obj hw2 :: rest2)))
    (h23 : parse_status hw2 = .ok M)
    (h24 : env2.send_status_transport = SendOutcome.success)
    (hM : some M ≠ s.latest_hw_status) :
    main_cycle env1 s =
      .next ⟨s.timestamp, some M⟩
        [M, failure_message (.sendMessageError SEND_MESSAGE_ERROR)] ∧
    run_cycles [env1, env2] s =
      ⟨⟨s.timestamp, some M⟩,
        [M, failure_message (.sendMessageError SEND_MESSAGE_ERROR)], none⟩ := by
  have hc1 := main_cycle_notify_sendfail env1 s fields1 hw1 rest1 M m h11 h12 h13 h14 h15 hM
  have hc2 := main_cycle_notify env2 ⟨s.timestamp, some M⟩ fields2 hw2 rest2 M
    h21 h22 h23 h24
  refine ⟨hc1, ?_⟩
  simp only [run_cycles, hc1, hc2]
  simp

/-- C10, witness: a failed delivery of the cat_project message followed
by a cycle with the same response sends the status message only in the
first cycle (where delivery failed) and never again. -/
theorem C10_state_updated_before_send_witness :
    run_cycles [⟨.responded 200 (some body_cat), .telegramError "off", .success⟩, env_cat]
        ⟨0, none⟩ =
      ⟨⟨0, some CAT_APPROVED_MESSAGE⟩,
        [CAT_APPROVED_MESSAGE, failure_message (.sendMessageError SEND_MESSAGE_ERROR)],
        none⟩ :=
  (C10_state_updated_before_send ⟨0, none⟩
    ⟨.responded 200 (some body_cat), .telegramError "off", .success⟩ env_cat
    [("homeworks", .arr [.obj hw_cat])] hw_cat []
    [("homeworks", .arr [.obj hw_cat])] hw_cat []
    CAT_APPROVED_MESSAGE "off"
    rfl rfl rfl rfl rfl rfl rfl rfl rfl (by simp)).2

end HomeworkBot
